import Mathlib

/-! Formal model of the fleet simulation engine of the APSRTC dynamic-routing
backend (`backend/services/simulation.py`), embedded shallowly: Python floats
are modelled as rationals, and `math.sqrt` and the `random` module as explicit
oracle parameters threaded through the functions that consume them. -/

/-- A `{lat, lon}` waypoint of a route path. -/
structure Waypoint where
  lat : ℚ
  lon : ℚ
deriving DecidableEq

/-- `Route` (simulation.py lines 9–14): id, display name, ordered polyline. -/
structure Route where
  route_id : String
  name : String
  path : List Waypoint
deriving DecidableEq

/-- The three delay states a bus can be in. -/
inductive BusStatus where
  | onTime
  | minorDelay
  | criticalDelay
deriving DecidableEq

/-- The mutable state of a `Bus` (simulation.py lines 16–33). -/
structure Bus where
  bus_id : String
  route : Route
  current_stop_index : ℕ
  progress_to_next : ℚ
  speed : ℚ
  status : BusStatus
  delay_minutes : ℚ
  occupancy : ℤ
  lat : ℚ
  lon : ℚ
deriving DecidableEq

/-- `Bus.__init__` (lines 17–33); `occ0` is the draw `random.randint(10, 50)`
of line 25.  With an empty path the position defaults to `(0, 0)`. -/
def Bus.init (bus_id : String) (route : Route) (occ0 : ℤ) : Bus where
  bus_id := bus_id
  route := route
  current_stop_index := 0
  progress_to_next := 0
  speed := 0
  status := .onTime
  delay_minutes := 0
  occupancy := occ0
  lat := match route.path with
    | [] => 0
    | w :: _ => w.lat
  lon := match route.path with
    | [] => 0
    | w :: _ => w.lon

/-- Speed factor selected from the status (lines 40–45). -/
def speedFactor : BusStatus → ℚ
  | .criticalDelay => 0.2
  | .minorDelay => 0.6
  | .onTime => 1

/-- List indexing `path[i]`; the default is irrelevant at valid indices. -/
def wp (path : List Waypoint) (i : ℕ) : Waypoint := path.getD i ⟨0, 0⟩

/-- `(self.current_stop_index + 1) % len(self.route.path)` (line 52). -/
def nextIndex (b : Bus) : ℕ := (b.current_stop_index + 1) % b.route.path.length

/-- Squared planar distance between two waypoints; `math.sqrt` of this is the
`dist` of line 56. -/
def dist2 (a c : Waypoint) : ℚ := (c.lat - a.lat) ^ 2 + (c.lon - a.lon) ^ 2

/-- Lines 56–57: `dist = math.sqrt(...)`, replaced by `0.001` when it is
exactly zero. -/
def effectiveDist (sqrtFn : ℚ → ℚ) (a c : Waypoint) : ℚ :=
  if sqrtFn (dist2 a c) = 0 then 0.001 else sqrtFn (dist2 a c)

/-- Line 62: `step = (0.0001 * delta_seconds * speed_factor) / dist`. -/
def progressStep (sqrtFn : ℚ → ℚ) (delta_seconds : ℚ) (b : Bus) : ℚ :=
  (0.0001 * delta_seconds * speedFactor b.status) /
    effectiveDist sqrtFn (wp b.route.path b.current_stop_index) (wp b.route.path (nextIndex b))

/-- Line 63: the accumulated progress, before the wrap check of line 65. -/
def progress1 (sqrtFn : ℚ → ℚ) (delta_seconds : ℚ) (b : Bus) : ℚ :=
  b.progress_to_next + progressStep sqrtFn delta_seconds b

/-- Python `max(0, min(100, x))` clamp of line 71. -/
def clampOcc (x : ℤ) : ℤ := max 0 (min 100 x)

/-- Segment index after the tick: advanced cyclically iff progress reached 1
(lines 65–67). -/
def newIndex (sqrtFn : ℚ → ℚ) (delta_seconds : ℚ) (b : Bus) : ℕ :=
  if 1 ≤ progress1 sqrtFn delta_seconds b then nextIndex b else b.current_stop_index

/-- Progress after the tick: reset to 0 on wrap (lines 65–66). -/
def newProgress (sqrtFn : ℚ → ℚ) (delta_seconds : ℚ) (b : Bus) : ℚ :=
  if 1 ≤ progress1 sqrtFn delta_seconds b then 0 else progress1 sqrtFn delta_seconds b

/-- Occupancy after the tick: passenger exchange `random.randint(-5, 10)` is
applied and clamped only on wrap (lines 69–71). -/
def newOccupancy (sqrtFn : ℚ → ℚ) (occDelta : ℤ) (delta_seconds : ℚ) (b : Bus) : ℤ :=
  if 1 ≤ progress1 sqrtFn delta_seconds b then clampOcc (b.occupancy + occDelta) else b.occupancy

/-- `Bus.update_position` (lines 35–80).  `sqrtFn` stands for `math.sqrt` and
`occDelta` for the draw `random.randint(-5, 10)`.  An empty path returns the
bus unchanged (lines 36–37); otherwise the position is re-interpolated from
the (possibly advanced) segment bounds (lines 73–78). -/
def Bus.update_position (sqrtFn : ℚ → ℚ) (occDelta : ℤ) (delta_seconds : ℚ) (b : Bus) : Bus :=
  if b.route.path = [] then b
  else
    { b with
        current_stop_index := newIndex sqrtFn delta_seconds b
        progress_to_next := newProgress sqrtFn delta_seconds b
        occupancy := newOccupancy sqrtFn occDelta delta_seconds b
        lat := (wp b.route.path (newIndex sqrtFn delta_seconds b)).lat
          + ((wp b.route.path ((newIndex sqrtFn delta_seconds b + 1) % b.route.path.length)).lat
              - (wp b.route.path (newIndex sqrtFn delta_seconds b)).lat)
            * newProgress sqrtFn delta_seconds b
        lon := (wp b.route.path (newIndex sqrtFn delta_seconds b)).lon
          + ((wp b.route.path ((newIndex sqrtFn delta_seconds b + 1) % b.route.path.length)).lon
              - (wp b.route.path (newIndex sqrtFn delta_seconds b)).lon)
            * newProgress sqrtFn delta_seconds b }

/-- Per-bus, per-tick draws of the `random` module consumed by
`TransportSimulation.update` (lines 265–281): `occDelta` is
`random.randint(-5, 10)`, `rEvent` and `rStatus` the two `random.random()`
results of lines 271–272, and `randint a c` the band draw
`random.randint(a, c)` of lines 275/278/281. -/
structure Rng where
  occDelta : ℤ
  rEvent : ℚ
  rStatus : ℚ
  randint : ℤ → ℤ → ℤ

/-- The per-bus body of `TransportSimulation.update` (lines 265–281): move the
bus, then with the 1% event re-sample status and delay. -/
def busTick (sqrtFn : ℚ → ℚ) (g : Rng) (delta_seconds : ℚ) (b : Bus) : Bus :=
  let b1 := b.update_position sqrtFn g.occDelta delta_seconds
  if g.rEvent < 0.01 then
    if g.rStatus < 0.1 then
      { b1 with status := .criticalDelay, delay_minutes := (g.randint 15 45 : ℚ) }
    else if g.rStatus < 0.4 then
      { b1 with status := .minorDelay, delay_minutes := (g.randint 5 14 : ℚ) }
    else
      { b1 with status := .onTime, delay_minutes := (g.randint 0 4 : ℚ) }
  else b1

/-- A sequence of ticks acting on one bus, each with its own draws and its own
`delta_seconds`. -/
def runTicks (sqrtFn : ℚ → ℚ) (l : List (Rng × ℚ)) (b : Bus) : Bus :=
  l.foldl (fun acc p => busTick sqrtFn p.1 p.2 acc) b

/-! ## Invariants of the bus state (spec §3 / §8) -/

/-- The invariant of spec §3/§8: progress in `[0, 1)`, occupancy in
`[0, 100]`, and (on a nonempty route) a valid segment index. -/
def BusInv (b : Bus) : Prop :=
  0 ≤ b.progress_to_next ∧ b.progress_to_next < 1 ∧
  0 ≤ b.occupancy ∧ b.occupancy ≤ 100 ∧
  (b.route.path ≠ [] → b.current_stop_index < b.route.path.length)

/-- The startup states the code actually constructs: `Bus.__init__` with
`occupancy = random.randint(10, 50)`, optionally followed by the
`current_stop_index = random.randint(0, max(0, len(path) - 2))` of
`load_real_data` (lines 208/215) or the `progress_to_next = 0.5` of
`_init_mock_data` (line 254). -/
def BusStartup (b : Bus) : Prop :=
  ∃ (rt : Route) (occ0 : ℤ),
    10 ≤ occ0 ∧ occ0 ≤ 50 ∧
    (b = Bus.init b.bus_id rt occ0 ∨
     (∃ i : ℕ, i ≤ max 0 (rt.path.length - 2) ∧
        b = { Bus.init b.bus_id rt occ0 with current_stop_index := i }) ∨
     b = { Bus.init b.bus_id rt occ0 with progress_to_next := 0.5 })

lemma speedFactor_pos (s : BusStatus) : 0 < speedFactor s := by
  cases s <;> norm_num [speedFactor]

lemma effectiveDist_pos (sqrtFn : ℚ → ℚ) (hsq : ∀ q, 0 ≤ sqrtFn q) (a c : Waypoint) :
    0 < effectiveDist sqrtFn a c := by
  unfold effectiveDist
  by_cases h : sqrtFn (dist2 a c) = 0
  · rw [if_pos h]; norm_num
  · rw [if_neg h]; exact lt_of_le_of_ne (hsq _) (Ne.symm h)

lemma progressStep_nonneg (sqrtFn : ℚ → ℚ) (delta : ℚ) (b : Bus)
    (hsq : ∀ q, 0 ≤ sqrtFn q) (hd : 0 ≤ delta) :
    0 ≤ progressStep sqrtFn delta b := by
  unfold progressStep
  apply div_nonneg
  · have := speedFactor_pos b.status
    nlinarith
  · exact (effectiveDist_pos sqrtFn hsq _ _).le

lemma newProgress_nonneg (sqrtFn : ℚ → ℚ) (delta : ℚ) (b : Bus)
    (hsq : ∀ q, 0 ≤ sqrtFn q) (hd : 0 ≤ delta) (h0 : 0 ≤ b.progress_to_next) :
    0 ≤ newProgress sqrtFn delta b := by
  unfold newProgress
  split
  · exact le_refl 0
  · exact add_nonneg h0 (progressStep_nonneg sqrtFn delta b hsq hd)

lemma newProgress_lt_one (sqrtFn : ℚ → ℚ) (delta : ℚ) (b : Bus) :
    newProgress sqrtFn delta b < 1 := by
  unfold newProgress
  split
  · norm_num
  · exact lt_of_not_le (by assumption)

lemma clampOcc_nonneg (x : ℤ) : 0 ≤ clampOcc x := le_max_left 0 _

lemma clampOcc_le (x : ℤ) : clampOcc x ≤ 100 :=
  max_le (by norm_num) (min_le_left 100 x)

lemma nextIndex_lt (b : Bus) (hp : b.route.path ≠ []) : nextIndex b < b.route.path.length :=
  Nat.mod_lt _ (List.length_pos.mpr hp)

lemma newIndex_lt (sqrtFn : ℚ → ℚ) (delta : ℚ) (b : Bus) (hp : b.route.path ≠ [])
    (hidx : b.current_stop_index < b.route.path.length) :
    newIndex sqrtFn delta b < b.route.path.length := by
  unfold newIndex
  split
  · exact nextIndex_lt b hp
  · exact hidx

lemma update_position_inv (sqrtFn : ℚ → ℚ) (occD : ℤ) (delta : ℚ) (b : Bus)
    (hsq : ∀ q, 0 ≤ sqrtFn q) (hd : 0 ≤ delta) (hb : BusInv b) :
    BusInv (b.update_position sqrtFn occD delta) := by
  obtain ⟨h0, h1, ho0, ho1, hidx⟩ := hb
  unfold Bus.update_position
  by_cases hp : b.route.path = []
  · rw [if_pos hp]; exact ⟨h0, h1, ho0, ho1, hidx⟩
  · rw [if_neg hp]
    refine ⟨newProgress_nonneg sqrtFn delta b hsq hd h0, newProgress_lt_one sqrtFn delta b,
      ?_, ?_, ?_⟩
    · show 0 ≤ newOccupancy sqrtFn occD delta b
      unfold newOccupancy
      split
      · exact clampOcc_nonneg _
      · exact ho0
    · show newOccupancy sqrtFn occD delta b ≤ 100
      unfold newOccupancy
      split
      · exact clampOcc_le _
      · exact ho1
    · intro _
      exact newIndex_lt sqrtFn delta b hp (hidx hp)

lemma busTick_fields (sqrtFn : ℚ → ℚ) (g : Rng) (delta : ℚ) (b : Bus) :
    (busTick sqrtFn g delta b).route = (b.update_position sqrtFn g.occDelta delta).route ∧
    (busTick sqrtFn g delta b).current_stop_index
      = (b.update_position sqrtFn g.occDelta delta).current_stop_index ∧
    (busTick sqrtFn g delta b).progress_to_next
      = (b.update_position sqrtFn g.occDelta delta).progress_to_next ∧
    (busTick sqrtFn g delta b).occupancy = (b.update_position sqrtFn g.occDelta delta).occupancy ∧
    (busTick sqrtFn g delta b).lat = (b.update_position sqrtFn g.occDelta delta).lat ∧
    (busTick sqrtFn g delta b).lon = (b.update_position sqrtFn g.occDelta delta).lon := by
  unfold busTick
  split
  · split
    · exact ⟨rfl, rfl, rfl, rfl, rfl, rfl⟩
    · split
      · exact ⟨rfl, rfl, rfl, rfl, rfl, rfl⟩
      · exact ⟨rfl, rfl, rfl, rfl, rfl, rfl⟩
  · exact ⟨rfl, rfl, rfl, rfl, rfl, rfl⟩

lemma busTick_inv (sqrtFn : ℚ → ℚ) (g : Rng) (delta : ℚ) (b : Bus)
    (hsq : ∀ q, 0 ≤ sqrtFn q) (hd : 0 ≤ delta) (hb : BusInv b) :
    BusInv (busTick sqrtFn g delta b) := by
  obtain ⟨hr, hi, hpr, hoc, -, -⟩ := busTick_fields sqrtFn g delta b
  have h := update_position_inv sqrtFn g.occDelta delta b hsq hd hb
  obtain ⟨u0, u1, u2, u3, u4⟩ := h
  exact ⟨hpr ▸ u0, hpr ▸ u1, hoc ▸ u2, hoc ▸ u3, by rw [hr, hi]; exact u4⟩

lemma startup_inv (b : Bus) (hb : BusStartup b) : BusInv b := by
  obtain ⟨rt, occ0, h10, h50, hcase⟩ := hb
  rcases hcase with h | ⟨i, hi, h⟩ | h
  · rw [h]
    refine ⟨le_refl 0, ?_, ?_, ?_, fun hne => ?_⟩
    · show (0 : ℚ) < 1
      norm_num
    · show (0 : ℤ) ≤ occ0
      omega
    · show occ0 ≤ (100 : ℤ)
      omega
    · have hne2 : rt.path ≠ [] := hne
      show 0 < rt.path.length
      exact List.length_pos.mpr hne2
  · rw [h]
    refine ⟨le_refl 0, ?_, ?_, ?_, fun hne => ?_⟩
    · show (0 : ℚ) < 1
      norm_num
    · show (0 : ℤ) ≤ occ0
      omega
    · show occ0 ≤ (100 : ℤ)
      omega
    · have hne2 : rt.path ≠ [] := hne
      show i < rt.path.length
      have hz : rt.path.length ≠ 0 := fun hz => hne2 (List.length_eq_zero.mp hz)
      omega
  · rw [h]
    refine ⟨?_, ?_, ?_, ?_, fun hne => ?_⟩
    · show (0 : ℚ) ≤ 0.5
      norm_num
    · show (0.5 : ℚ) < 1
      norm_num
    · show (0 : ℤ) ≤ occ0
      omega
    · show occ0 ≤ (100 : ℤ)
      omega
    · have hne2 : rt.path ≠ [] := hne
      show 0 < rt.path.length
      exact List.length_pos.mpr hne2

lemma runTicks_inv (sqrtFn : ℚ → ℚ) (hsq : ∀ q, 0 ≤ sqrtFn q) :
    ∀ (l : List (Rng × ℚ)) (b : Bus), (∀ p ∈ l, 0 ≤ p.2) → BusInv b →
      BusInv (runTicks sqrtFn l b)
  | [], _, _, hb => hb
  | p :: t, b, hl, hb => by
    have h1 : BusInv (busTick sqrtFn p.1 p.2 b) :=
      busTick_inv sqrtFn p.1 p.2 b hsq (hl p (List.mem_cons_self p t)) hb
    have ht : ∀ q ∈ t, 0 ≤ q.2 := fun q hq => hl q (List.mem_cons_of_mem p hq)
    exact runTicks_inv sqrtFn hsq t (busTick sqrtFn p.1 p.2 b) ht h1

lemma update_position_fields (sqrtFn : ℚ → ℚ) (occD : ℤ) (delta : ℚ) (b : Bus)
    (hp : b.route.path ≠ []) :
    (b.update_position sqrtFn occD delta).route = b.route ∧
    (b.update_position sqrtFn occD delta).current_stop_index = newIndex sqrtFn delta b ∧
    (b.update_position sqrtFn occD delta).progress_to_next = newProgress sqrtFn delta b ∧
    (b.update_position sqrtFn occD delta).occupancy = newOccupancy sqrtFn occD delta b ∧
    (b.update_position sqrtFn occD delta).lat
      = (wp b.route.path (newIndex sqrtFn delta b)).lat
        + ((wp b.route.path ((newIndex sqrtFn delta b + 1) % b.route.path.length)).lat
            - (wp b.route.path (newIndex sqrtFn delta b)).lat) * newProgress sqrtFn delta b ∧
    (b.update_position sqrtFn occD delta).lon
      = (wp b.route.path (newIndex sqrtFn delta b)).lon
        + ((wp b.route.path ((newIndex sqrtFn delta b + 1) % b.route.path.length)).lon
            - (wp b.route.path (newIndex sqrtFn delta b)).lon) * newProgress sqrtFn delta b := by
  unfold Bus.update_position
  rw [if_neg hp]
  exact ⟨rfl, rfl, rfl, rfl, rfl, rfl⟩

/-! ## Claim C1: bus state invariant under arbitrary ticks -/

/-- C1: from any startup state the code constructs, after any number of
`update(delta_seconds)` ticks — each with nonnegative elapsed time and with a
nonnegative square-root oracle, as `math.sqrt` is — the bus satisfies
`0 ≤ progress_to_next < 1`, `0 ≤ occupancy ≤ 100`, and (on a nonempty route)
`current_stop_index` is a valid index into the route's waypoint sequence. -/
theorem bus_invariant_all_ticks (sqrtFn : ℚ → ℚ) (l : List (Rng × ℚ)) (b : Bus)
    (hsq : ∀ q, 0 ≤ sqrtFn q) (hl : ∀ p ∈ l, 0 ≤ p.2) (hb : BusStartup b) :
    BusInv (runTicks sqrtFn l b) :=
  runTicks_inv sqrtFn hsq l b hl (startup_inv b hb)

/-- A two-waypoint demonstration route for concrete evaluations. -/
def demoRoute : Route := ⟨"R-demo", "Demo", [⟨0, 0⟩, ⟨0, 1⟩]⟩

/-- Concrete per-tick draws: no event (`rEvent = 1/2 ≥ 0.01`). -/
def demoRng : Rng := { occDelta := 7, rEvent := 1/2, rStatus := 1/2, randint := fun a _ => a }

theorem bus_invariant_all_ticks_witness :
    BusInv (runTicks (fun _ => 0) [(demoRng, 1)] (Bus.init "BUS-W1" demoRoute 20)) :=
  bus_invariant_all_ticks (fun _ => 0) [(demoRng, 1)] (Bus.init "BUS-W1" demoRoute 20)
    (fun _ => le_refl 0)
    (by
      intro p hp
      rw [List.mem_singleton] at hp
      rw [hp]
      norm_num)
    ⟨demoRoute, 20, by norm_num, by norm_num, Or.inl rfl⟩

/-! ## Claim C6: the step computation never divides by zero -/

/-- C6: the divisor actually used by the progress-step computation is strictly
positive whenever the square-root oracle is nonnegative (as `math.sqrt` is),
and when the planar distance between the segment's waypoints is zero the
substituted divisor is exactly `0.001`; the step is the stated quotient by
that divisor, so no division by zero can occur for any route path. -/
theorem step_divisor_never_zero (sqrtFn : ℚ → ℚ) (delta : ℚ) (b : Bus)
    (hsq : ∀ q, 0 ≤ sqrtFn q) :
    0 < effectiveDist sqrtFn (wp b.route.path b.current_stop_index)
          (wp b.route.path (nextIndex b)) ∧
    (sqrtFn (dist2 (wp b.route.path b.current_stop_index) (wp b.route.path (nextIndex b))) = 0 →
      effectiveDist sqrtFn (wp b.route.path b.current_stop_index)
          (wp b.route.path (nextIndex b)) = 0.001) ∧
    progressStep sqrtFn delta b
      = (0.0001 * delta * speedFactor b.status) /
          effectiveDist sqrtFn (wp b.route.path b.current_stop_index)
            (wp b.route.path (nextIndex b)) := by
  refine ⟨effectiveDist_pos sqrtFn hsq _ _, fun h => ?_, rfl⟩
  unfold effectiveDist
  rw [if_pos h]

theorem step_divisor_never_zero_witness :
    0 < effectiveDist (fun _ => 0) (wp demoRoute.path 0) (wp demoRoute.path (nextIndex (Bus.init "BUS-W6" demoRoute 20))) ∧
    (Function.const ℚ (0 : ℚ) (dist2 (wp demoRoute.path 0) (wp demoRoute.path (nextIndex (Bus.init "BUS-W6" demoRoute 20)))) = 0 →
      effectiveDist (fun _ => 0) (wp demoRoute.path 0) (wp demoRoute.path (nextIndex (Bus.init "BUS-W6" demoRoute 20))) = 0.001) ∧
    progressStep (fun _ => 0) 1 (Bus.init "BUS-W6" demoRoute 20)
      = (0.0001 * 1 * speedFactor (Bus.init "BUS-W6" demoRoute 20).status) /
          effectiveDist (fun _ => 0) (wp demoRoute.path 0) (wp demoRoute.path (nextIndex (Bus.init "BUS-W6" demoRoute 20))) :=
  step_divisor_never_zero (fun _ => 0) 1 (Bus.init "BUS-W6" demoRoute 20) (fun _ => le_refl 0)

/-! ## Claim C2: delay re-draws land in the band of the new status -/

/-- Delay band associated with a status (lines 273–281). -/
def inBand (s : BusStatus) (x : ℚ) : Prop :=
  match s with
  | .onTime => 0 ≤ x ∧ x ≤ 4
  | .minorDelay => 5 ≤ x ∧ x ≤ 14
  | .criticalDelay => 15 ≤ x ∧ x ≤ 45

/-- C2: whenever a tick performs the status re-sampling event
(`random.random() < 0.01`), the newly assigned `delay_minutes` lies inside
the band of the newly assigned status: on-time in `[0, 4]`, minor-delay in
`[5, 14]`, critical-delay in `[15, 45]`.  The hypothesis on `randint` states
what Python's inclusive `random.randint` guarantees. -/
theorem transition_delay_in_band (sqrtFn : ℚ → ℚ) (g : Rng) (delta : ℚ) (b : Bus)
    (hri : ∀ a c : ℤ, a ≤ c → a ≤ g.randint a c ∧ g.randint a c ≤ c)
    (hev : g.rEvent < 0.01) :
    inBand (busTick sqrtFn g delta b).status (busTick sqrtFn g delta b).delay_minutes := by
  simp only [busTick]
  rw [if_pos hev]
  by_cases h1 : g.rStatus < 0.1
  · rw [if_pos h1]
    have h := hri 15 45 (by norm_num)
    constructor
    · show (15 : ℚ) ≤ ((g.randint 15 45 : ℤ) : ℚ)
      exact_mod_cast h.1
    · show ((g.randint 15 45 : ℤ) : ℚ) ≤ 45
      exact_mod_cast h.2
  · rw [if_neg h1]
    by_cases h2 : g.rStatus < 0.4
    · rw [if_pos h2]
      have h := hri 5 14 (by norm_num)
      constructor
      · show (5 : ℚ) ≤ ((g.randint 5 14 : ℤ) : ℚ)
        exact_mod_cast h.1
      · show ((g.randint 5 14 : ℤ) : ℚ) ≤ 14
        exact_mod_cast h.2
    · rw [if_neg h2]
      have h := hri 0 4 (by norm_num)
      constructor
      · show (0 : ℚ) ≤ ((g.randint 0 4 : ℤ) : ℚ)
        exact_mod_cast h.1
      · show ((g.randint 0 4 : ℤ) : ℚ) ≤ 4
        exact_mod_cast h.2

/-- Concrete draws whose event fires and whose status draw selects on-time. -/
def demoRng2 : Rng := { occDelta := 0, rEvent := 0, rStatus := 1/2, randint := fun a _ => a }

theorem transition_delay_in_band_witness :
    inBand (busTick (fun _ => 0) demoRng2 1 (Bus.init "BUS-W2" demoRoute 20)).status
      (busTick (fun _ => 0) demoRng2 1 (Bus.init "BUS-W2" demoRoute 20)).delay_minutes :=
  transition_delay_in_band (fun _ => 0) demoRng2 1 (Bus.init "BUS-W2" demoRoute 20)
    (fun a c h => ⟨le_refl a, h⟩) (by norm_num [demoRng2])

/-! ## Claim C3: delay stability between transitions -/

/-- Draws whose event fires, whose status draw re-selects the current status
(on-time), and whose band draw moves the delay from 0 to 3. -/
def c3Rng : Rng := { occDelta := 0, rEvent := 0, rStatus := 1/2, randint := fun a _ => a + 3 }

/-- C3 is false on the code: with event draw `0 < 0.01` and status draw `0.5`
(which lands in the `else` branch), an on-time bus is re-assigned status
on-time — unchanged — while its `delay_minutes` is re-drawn from 0 to 3.  So
`delay_minutes` can change across a tick that leaves the status unchanged. -/
theorem delay_redraw_without_status_change :
    (busTick (fun _ => 0) c3Rng 1 (Bus.init "BUS-C3" demoRoute 20)).status
        = (Bus.init "BUS-C3" demoRoute 20).status ∧
    (busTick (fun _ => 0) c3Rng 1 (Bus.init "BUS-C3" demoRoute 20)).delay_minutes
        ≠ (Bus.init "BUS-C3" demoRoute 20).delay_minutes := by
  have hev : c3Rng.rEvent < 0.01 := by norm_num [c3Rng]
  have h1 : ¬ c3Rng.rStatus < 0.1 := by norm_num [c3Rng]
  have h2 : ¬ c3Rng.rStatus < 0.4 := by norm_num [c3Rng]
  constructor
  · simp only [busTick]
    rw [if_pos hev, if_neg h1, if_neg h2]
    rfl
  · simp only [busTick]
    rw [if_pos hev, if_neg h1, if_neg h2]
    show ((c3Rng.randint 0 4 : ℤ) : ℚ) ≠ 0
    norm_num [c3Rng]

/-- C3 (amended): `delay_minutes` changes only when the per-tick 1% re-sampling
event fires; on a tick whose event draw does not fire, both the status and the
delay are left unchanged.  (When the event does fire, the re-sampled status may
equal the previous one while the delay still changes.) -/
theorem delay_stable_without_event (sqrtFn : ℚ → ℚ) (g : Rng) (delta : ℚ) (b : Bus)
    (hev : ¬ g.rEvent < 0.01) :
    (busTick sqrtFn g delta b).status = b.status ∧
    (busTick sqrtFn g delta b).delay_minutes = b.delay_minutes := by
  simp only [busTick]
  rw [if_neg hev]
  unfold Bus.update_position
  split
  · exact ⟨rfl, rfl⟩
  · exact ⟨rfl, rfl⟩

theorem delay_stable_without_event_witness :
    (busTick (fun _ => 0) demoRng 1 (Bus.init "BUS-W3" demoRoute 20)).status
        = (Bus.init "BUS-W3" demoRoute 20).status ∧
    (busTick (fun _ => 0) demoRng 1 (Bus.init "BUS-W3" demoRoute 20)).delay_minutes
        = (Bus.init "BUS-W3" demoRoute 20).delay_minutes :=
  delay_stable_without_event (fun _ => 0) demoRng 1 (Bus.init "BUS-W3" demoRoute 20)
    (by norm_num [demoRng])

/-! ## Claim C4: position is a convex combination of the segment bounds -/

/-- C4: after a tick, the position equals the convex combination of the
waypoint at the (new) `current_stop_index` and the cyclically next waypoint,
with weight exactly the (new) `progress_to_next`, and that weight lies in
`[0, 1)` — so the position never leaves the segment between the two bounding
waypoints. -/
theorem position_convex_combination (sqrtFn : ℚ → ℚ) (g : Rng) (delta : ℚ) (b b2 : Bus)
    (hsq : ∀ q, 0 ≤ sqrtFn q) (hd : 0 ≤ delta) (hb : BusInv b)
    (hp : b.route.path ≠ []) (hb2 : b2 = busTick sqrtFn g delta b) :
    b2.lat = (1 - b2.progress_to_next) * (wp b2.route.path b2.current_stop_index).lat
        + b2.progress_to_next
          * (wp b2.route.path ((b2.current_stop_index + 1) % b2.route.path.length)).lat ∧
    b2.lon = (1 - b2.progress_to_next) * (wp b2.route.path b2.current_stop_index).lon
        + b2.progress_to_next
          * (wp b2.route.path ((b2.current_stop_index + 1) % b2.route.path.length)).lon ∧
    0 ≤ b2.progress_to_next ∧ b2.progress_to_next < 1 := by
  subst hb2
  obtain ⟨hr, hi, hpr, -, hlat, hlon⟩ := busTick_fields sqrtFn g delta b
  obtain ⟨ur, ui, upr, -, ulat, ulon⟩ := update_position_fields sqrtFn g.occDelta delta b hp
  rw [hr, hi, hpr, hlat, hlon, ur, ui, upr, ulat, ulon]
  exact ⟨by ring, by ring, newProgress_nonneg sqrtFn delta b hsq hd hb.1,
    newProgress_lt_one sqrtFn delta b⟩

theorem position_convex_combination_witness :
    (busTick (fun _ => 0) demoRng 1 (Bus.init "BUS-W4" demoRoute 20)).lat
        = (1 - (busTick (fun _ => 0) demoRng 1 (Bus.init "BUS-W4" demoRoute 20)).progress_to_next)
            * (wp (busTick (fun _ => 0) demoRng 1 (Bus.init "BUS-W4" demoRoute 20)).route.path
                (busTick (fun _ => 0) demoRng 1 (Bus.init "BUS-W4" demoRoute 20)).current_stop_index).lat
          + (busTick (fun _ => 0) demoRng 1 (Bus.init "BUS-W4" demoRoute 20)).progress_to_next
            * (wp (busTick (fun _ => 0) demoRng 1 (Bus.init "BUS-W4" demoRoute 20)).route.path
                (((busTick (fun _ => 0) demoRng 1 (Bus.init "BUS-W4" demoRoute 20)).current_stop_index + 1)
                  % (busTick (fun _ => 0) demoRng 1 (Bus.init "BUS-W4" demoRoute 20)).route.path.length)).lat ∧
    (busTick (fun _ => 0) demoRng 1 (Bus.init "BUS-W4" demoRoute 20)).lon
        = (1 - (busTick (fun _ => 0) demoRng 1 (Bus.init "BUS-W4" demoRoute 20)).progress_to_next)
            * (wp (busTick (fun _ => 0) demoRng 1 (Bus.init "BUS-W4" demoRoute 20)).route.path
                (busTick (fun _ => 0) demoRng 1 (Bus.init "BUS-W4" demoRoute 20)).current_stop_index).lon
          + (busTick (fun _ => 0) demoRng 1 (Bus.init "BUS-W4" demoRoute 20)).progress_to_next
            * (wp (busTick (fun _ => 0) demoRng 1 (Bus.init "BUS-W4" demoRoute 20)).route.path
                (((busTick (fun _ => 0) demoRng 1 (Bus.init "BUS-W4" demoRoute 20)).current_stop_index + 1)
                  % (busTick (fun _ => 0) demoRng 1 (Bus.init "BUS-W4" demoRoute 20)).route.path.length)).lon ∧
    0 ≤ (busTick (fun _ => 0) demoRng 1 (Bus.init "BUS-W4" demoRoute 20)).progress_to_next ∧
    (busTick (fun _ => 0) demoRng 1 (Bus.init "BUS-W4" demoRoute 20)).progress_to_next < 1 :=
  position_convex_combination (fun _ => 0) demoRng 1 (Bus.init "BUS-W4" demoRoute 20)
    (busTick (fun _ => 0) demoRng 1 (Bus.init "BUS-W4" demoRoute 20))
    (fun _ => le_refl 0) (by norm_num)
    (startup_inv _ ⟨demoRoute, 20, by norm_num, by norm_num, Or.inl rfl⟩)
    (by decide) rfl

/-! ## Claim C5: degenerate routes pin the position -/

/-- Pinning invariant for a bus bound to a degenerate route: the position sits
at the default `(0, 0)` when the route has no waypoints, and at the unique
waypoint (with segment index 0) when it has exactly one. -/
def Pinned (rt : Route) (b : Bus) : Prop :=
  b.route = rt ∧
  (rt.path = [] → b.lat = 0 ∧ b.lon = 0) ∧
  (∀ w, rt.path = [w] → b.current_stop_index = 0 ∧ b.lat = w.lat ∧ b.lon = w.lon)

lemma pinned_init (bid : String) (rt : Route) (occ0 : ℤ) :
    Pinned rt (Bus.init bid rt occ0) := by
  refine ⟨rfl, fun hp => ?_, fun w hw => ?_⟩
  · simp [Bus.init, hp]
  · simp [Bus.init, hw]

lemma pinned_tick (sqrtFn : ℚ → ℚ) (g : Rng) (delta : ℚ) (rt : Route) (b : Bus)
    (hb : Pinned rt b) : Pinned rt (busTick sqrtFn g delta b) := by
  obtain ⟨hroute, hnil, hone⟩ := hb
  obtain ⟨tr, ti, -, -, tlat, tlon⟩ := busTick_fields sqrtFn g delta b
  rcases hpath : rt.path with - | ⟨w, tail⟩
  · have hbp : b.route.path = [] := by rw [hroute, hpath]
    have hupd : b.update_position sqrtFn g.occDelta delta = b := by
      unfold Bus.update_position
      rw [if_pos hbp]
    refine ⟨by rw [tr, hupd, hroute], fun _ => ?_, fun w2 hw2 => ?_⟩
    · rw [tlat, tlon, hupd]
      exact hnil hpath
    · rw [hpath] at hw2
      cases hw2
  · rcases tail with - | ⟨w2, tail2⟩
    · obtain ⟨hidx0, hlat0, hlon0⟩ := hone w hpath
      have hbp : b.route.path = [w] := by rw [hroute, hpath]
      have hbpne : b.route.path ≠ [] := by
        rw [hbp]
        exact List.cons_ne_nil w []
      obtain ⟨ur, ui, upr, -, ulat, ulon⟩ := update_position_fields sqrtFn g.occDelta delta b hbpne
      have hnext : nextIndex b = 0 := by
        unfold nextIndex
        rw [hbp]
        exact Nat.mod_one _
      have hni : newIndex sqrtFn delta b = 0 := by
        unfold newIndex
        split
        · exact hnext
        · exact hidx0
      refine ⟨by rw [tr, ur, hroute], fun hn => ?_, fun w3 hw3 => ?_⟩
      · rw [hpath] at hn
        cases hn
      · rw [hpath] at hw3
        have hww : w = w3 := by
          injection hw3
        subst hww
        refine ⟨by rw [ti, ui, hni], ?_, ?_⟩
        · rw [tlat, ulat, hni, hbp]
          simp [wp]
        · rw [tlon, ulon, hni, hbp]
          simp [wp]
    · -- two or more waypoints: not a degenerate route; nothing to prove here,
      -- the pinning hypotheses are vacuous
      refine ⟨?_, fun hn => ?_, fun w3 hw3 => ?_⟩
      · rw [tr]
        by_cases hbp : b.route.path = []
        · have : b.update_position sqrtFn g.occDelta delta = b := by
            unfold Bus.update_position
            rw [if_pos hbp]
          rw [this, hroute]
        · rw [(update_position_fields sqrtFn g.occDelta delta b hbp).1, hroute]
      · rw [hpath] at hn
        cases hn
      · rw [hpath] at hw3
        cases hw3

lemma runTicks_pinned (sqrtFn : ℚ → ℚ) (rt : Route) :
    ∀ (l : List (Rng × ℚ)) (b : Bus), Pinned rt b → Pinned rt (runTicks sqrtFn l b)
  | [], _, hb => hb
  | p :: t, b, hb =>
    runTicks_pinned sqrtFn rt t _ (pinned_tick sqrtFn p.1 p.2 rt b hb)

/-- C5: for a bus whose route has zero or one waypoints, every tick pins the
position: with zero waypoints it stays at the fixed default `(0, 0)` set by
`Bus.__init__`, with one waypoint it stays at that waypoint — no movement ever
occurs for such a bus, over any number of ticks. -/
theorem degenerate_route_pins_position (sqrtFn : ℚ → ℚ) (l : List (Rng × ℚ))
    (bid : String) (rt : Route) (occ0 : ℤ) (_hlen : rt.path.length ≤ 1) :
    (rt.path = [] → (runTicks sqrtFn l (Bus.init bid rt occ0)).lat = 0 ∧
        (runTicks sqrtFn l (Bus.init bid rt occ0)).lon = 0) ∧
    (∀ w, rt.path = [w] → (runTicks sqrtFn l (Bus.init bid rt occ0)).lat = w.lat ∧
        (runTicks sqrtFn l (Bus.init bid rt occ0)).lon = w.lon) := by
  have h := runTicks_pinned sqrtFn rt l (Bus.init bid rt occ0) (pinned_init bid rt occ0)
  exact ⟨fun hp => h.2.1 hp, fun w hw => ⟨(h.2.2 w hw).2.1, (h.2.2 w hw).2.2⟩⟩

/-- A one-waypoint route. -/
def oneStopRoute : Route := ⟨"R-one", "One", [⟨3, 4⟩]⟩

theorem degenerate_route_pins_position_witness :
    (oneStopRoute.path = [] →
        (runTicks (fun _ => 0) [(demoRng, 1)] (Bus.init "BUS-W5" oneStopRoute 20)).lat = 0 ∧
        (runTicks (fun _ => 0) [(demoRng, 1)] (Bus.init "BUS-W5" oneStopRoute 20)).lon = 0) ∧
    (∀ w, oneStopRoute.path = [w] →
        (runTicks (fun _ => 0) [(demoRng, 1)] (Bus.init "BUS-W5" oneStopRoute 20)).lat = w.lat ∧
        (runTicks (fun _ => 0) [(demoRng, 1)] (Bus.init "BUS-W5" oneStopRoute 20)).lon = w.lon) :=
  degenerate_route_pins_position (fun _ => 0) [(demoRng, 1)] "BUS-W5" oneStopRoute 20
    (by simp [oneStopRoute])

/-! ## The simulation container and its read-side queries -/

/-- Externally supplied per-route statistics (`self.route_stats[r_id]`), a dict
that may carry a `revenue` and/or a `reliability` entry. -/
structure RouteStats where
  revenue : Option ℚ
  reliability : Option ℚ
deriving DecidableEq

/-- The empty stats dict `{}` used as the lookup default (line 326). -/
def emptyStats : RouteStats := ⟨none, none⟩

/-- The state of `TransportSimulation` relevant to the read-side queries:
insertion-ordered dicts are modelled as association lists. -/
structure SimState where
  routes : List (String × Route)
  buses : List (String × Bus)
  route_stats : List (String × RouteStats)
deriving DecidableEq

/-- Python3 `round` with banker's (half-to-even) rounding to an integer. -/
def roundHalfEven (x : ℚ) : ℤ :=
  if x - ⌊x⌋ < 1/2 then ⌊x⌋
  else if 1/2 < x - ⌊x⌋ then ⌊x⌋ + 1
  else if ⌊x⌋ % 2 = 0 then ⌊x⌋ else ⌊x⌋ + 1

/-- Python `round(x, n)` on exact rationals. -/
def pyRound (x : ℚ) (n : ℕ) : ℚ := (roundHalfEven (x * 10 ^ n) : ℚ) / 10 ^ n

/-- Python `int(x)`: truncation toward zero. -/
def pyInt (x : ℚ) : ℤ := if 0 ≤ x then ⌊x⌋ else ⌈x⌉

/-- The KPI record returned by `get_kpis` (lines 299–318). -/
structure KpiReport where
  active_buses : ℕ
  total_routes : ℕ
  delayed_buses : ℕ
  avg_occupancy : ℚ
  total_revenue : ℚ
deriving DecidableEq

/-- `TransportSimulation.get_kpis` (lines 299–318). -/
def get_kpis (s : SimState) : KpiReport :=
  { active_buses := s.buses.length
    total_routes := s.routes.length
    delayed_buses := ((s.buses.map Prod.snd).filter (fun b => b.status ≠ .onTime)).length
    avg_occupancy :=
      if 0 < s.buses.length then
        pyRound ((((s.buses.map Prod.snd).map Bus.occupancy).sum : ℚ) / s.buses.length) 1
      else 0
    total_revenue := (s.route_stats.map (fun p => p.2.revenue.getD 0)).sum }

/-- One element of the list returned by `get_route_analytics` (lines 338–346). -/
structure AnalyticsEntry where
  route_id : String
  route_name : String
  avg_delay : ℚ
  total_passengers : ℤ
  utilization_score : ℚ
  revenue : ℚ
  reliability : ℚ
deriving DecidableEq

/-- `[b for b in self.buses.values() if b.route.route_id == r_id]` (line 323). -/
def busesOnRoute (s : SimState) (r_id : String) : List Bus :=
  (s.buses.map Prod.snd).filter (fun b => b.route.route_id = r_id)

/-- The body of the loop of `get_route_analytics` (lines 322–346) for one
route. -/
def routeAnalyticsEntry (s : SimState) (r_id : String) (route : Route) : AnalyticsEntry :=
  let stats := (s.route_stats.lookup r_id).getD emptyStats
  let revenue := stats.revenue.getD 0
  let reliability := stats.reliability.getD 100
  let avg_delay : ℚ :=
    if busesOnRoute s r_id ≠ [] then
      ((busesOnRoute s r_id).map Bus.delay_minutes).sum / (busesOnRoute s r_id).length
    else 0
  let avg_occupancy : ℚ :=
    if busesOnRoute s r_id ≠ [] then
      (((busesOnRoute s r_id).map Bus.occupancy).sum : ℚ) / (busesOnRoute s r_id).length
    else 0
  { route_id := r_id
    route_name := route.name
    avg_delay := pyRound avg_delay 1
    total_passengers := pyInt (avg_occupancy * 10)
    utilization_score := pyRound (min 1 (avg_occupancy / 100)) 2
    revenue := revenue
    reliability := reliability }

/-- `TransportSimulation.get_route_analytics` (lines 320–347). -/
def get_route_analytics (s : SimState) : List AnalyticsEntry :=
  s.routes.map (fun p => routeAnalyticsEntry s p.1 p.2)

lemma pyRound_zero (n : ℕ) : pyRound 0 n = 0 := by
  unfold pyRound roundHalfEven
  norm_num

/-! ## Claim C8: KPIs on an empty fleet -/

/-- C8: `get_kpis` on an empty fleet returns `active_buses = 0`,
`delayed_buses = 0` and `avg_occupancy = 0`; the mean-occupancy division is
guarded by the fleet-size test, so no division by zero is performed. -/
theorem kpis_empty_fleet (s : SimState) (hb : s.buses = []) :
    (get_kpis s).active_buses = 0 ∧ (get_kpis s).delayed_buses = 0 ∧
    (get_kpis s).avg_occupancy = 0 := by
  simp [get_kpis, hb]

/-- A state with one route, no buses and no external stats. -/
def emptyFleetSim : SimState :=
  { routes := [("R-demo", demoRoute)], buses := [], route_stats := [] }

theorem kpis_empty_fleet_witness :
    (get_kpis emptyFleetSim).active_buses = 0 ∧ (get_kpis emptyFleetSim).delayed_buses = 0 ∧
    (get_kpis emptyFleetSim).avg_occupancy = 0 :=
  kpis_empty_fleet emptyFleetSim rfl

/-! ## Claim C7: route analytics for a route with no buses -/

/-- C7: for a route with no buses assigned, `get_route_analytics` produces an
entry with `avg_delay = 0` and mean occupancy treated as 0 — hence
`utilization_score = 0` and `total_passengers = 0` — while still reporting
the externally supplied revenue and reliability, which default to 0 and 100
respectively when the route has no external stats; and when the route is in
the catalog, that entry is among the returned analytics. -/
theorem route_analytics_no_buses (s : SimState) (r_id : String) (rt : Route)
    (hno : ∀ p ∈ s.buses, p.2.route.route_id ≠ r_id) :
    (routeAnalyticsEntry s r_id rt).avg_delay = 0 ∧
    (routeAnalyticsEntry s r_id rt).total_passengers = 0 ∧
    (routeAnalyticsEntry s r_id rt).utilization_score = 0 ∧
    (routeAnalyticsEntry s r_id rt).revenue
      = ((s.route_stats.lookup r_id).getD emptyStats).revenue.getD 0 ∧
    (routeAnalyticsEntry s r_id rt).reliability
      = ((s.route_stats.lookup r_id).getD emptyStats).reliability.getD 100 ∧
    (s.route_stats.lookup r_id = none →
      (routeAnalyticsEntry s r_id rt).revenue = 0 ∧
      (routeAnalyticsEntry s r_id rt).reliability = 100) ∧
    ((r_id, rt) ∈ s.routes → routeAnalyticsEntry s r_id rt ∈ get_route_analytics s) := by
  have hempty : busesOnRoute s r_id = [] := by
    unfold busesOnRoute
    rw [List.filter_eq_nil_iff]
    intro b hb
    obtain ⟨p, hp, rfl⟩ := List.mem_map.mp hb
    simpa using hno p hp
  have hne : ¬ (busesOnRoute s r_id ≠ []) := by simp [hempty]
  refine ⟨?_, ?_, ?_, rfl, rfl, fun hlk => ⟨?_, ?_⟩, fun hmem => ?_⟩
  · show pyRound
      (if busesOnRoute s r_id ≠ [] then
        ((busesOnRoute s r_id).map Bus.delay_minutes).sum / (busesOnRoute s r_id).length
      else 0) 1 = 0
    rw [if_neg hne]
    exact pyRound_zero 1
  · show pyInt
      ((if busesOnRoute s r_id ≠ [] then
          ((((busesOnRoute s r_id).map Bus.occupancy).sum : ℤ) : ℚ) / (busesOnRoute s r_id).length
        else 0) * 10) = 0
    rw [if_neg hne]
    norm_num [pyInt]
  · show pyRound
      (min 1 ((if busesOnRoute s r_id ≠ [] then
          ((((busesOnRoute s r_id).map Bus.occupancy).sum : ℤ) : ℚ) / (busesOnRoute s r_id).length
        else 0) / 100)) 2 = 0
    rw [if_neg hne]
    have h0 : (0 : ℚ) / 100 = 0 := by norm_num
    rw [h0, min_eq_right (by norm_num : (0 : ℚ) ≤ 1)]
    exact pyRound_zero 2
  · show ((s.route_stats.lookup r_id).getD emptyStats).revenue.getD 0 = 0
    rw [hlk]
    rfl
  · show ((s.route_stats.lookup r_id).getD emptyStats).reliability.getD 100 = 100
    rw [hlk]
    rfl
  · exact List.mem_map_of_mem _ hmem

theorem route_analytics_no_buses_witness :
    (routeAnalyticsEntry emptyFleetSim "R-demo" demoRoute).avg_delay = 0 ∧
    (routeAnalyticsEntry emptyFleetSim "R-demo" demoRoute).total_passengers = 0 ∧
    (routeAnalyticsEntry emptyFleetSim "R-demo" demoRoute).utilization_score = 0 ∧
    (routeAnalyticsEntry emptyFleetSim "R-demo" demoRoute).revenue
      = ((emptyFleetSim.route_stats.lookup "R-demo").getD emptyStats).revenue.getD 0 ∧
    (routeAnalyticsEntry emptyFleetSim "R-demo" demoRoute).reliability
      = ((emptyFleetSim.route_stats.lookup "R-demo").getD emptyStats).reliability.getD 100 ∧
    (emptyFleetSim.route_stats.lookup "R-demo" = none →
      (routeAnalyticsEntry emptyFleetSim "R-demo" demoRoute).revenue = 0 ∧
      (routeAnalyticsEntry emptyFleetSim "R-demo" demoRoute).reliability = 100) ∧
    (("R-demo", demoRoute) ∈ emptyFleetSim.routes →
      routeAnalyticsEntry emptyFleetSim "R-demo" demoRoute ∈ get_route_analytics emptyFleetSim) :=
  route_analytics_no_buses emptyFleetSim "R-demo" demoRoute
    (fun p hp => absurd hp (List.not_mem_nil p))

/-! ## Claim C9: fallback to the synthetic topology -/

/-- Route 1 of `_init_mock_data` (lines 225–231). -/
def mockRoute1 : Route :=
  ⟨"R-5A", "Benz Circle Expr",
    [⟨16.5062, 80.6480⟩, ⟨16.5100, 80.6400⟩, ⟨16.5150, 80.6300⟩, ⟨16.5180, 80.6200⟩]⟩

/-- Route 2 of `_init_mock_data` (lines 234–239). -/
def mockRoute2 : Route :=
  ⟨"R-12B", "City Loop", [⟨16.5200, 80.6200⟩, ⟨16.5250, 80.6250⟩, ⟨16.5300, 80.6350⟩]⟩

/-- Route 3 of `_init_mock_data` (lines 242–247). -/
def mockRoute3 : Route :=
  ⟨"R-47C", "Ind. Park Line", [⟨16.5000, 80.6000⟩, ⟨16.5050, 80.6100⟩, ⟨16.5100, 80.6200⟩]⟩

/-- `_init_mock_data` (lines 220–256); `occ` supplies the four
`random.randint(10, 50)` occupancy draws in construction order, and BUS-103
starts mid-way with `progress_to_next = 0.5` (line 254). -/
def initMockData (occ : ℕ → ℤ) : SimState :=
  { routes := [("R-5A", mockRoute1), ("R-12B", mockRoute2), ("R-47C", mockRoute3)]
    buses :=
      [("BUS-101", Bus.init "BUS-101" mockRoute1 (occ 0)),
       ("BUS-102", Bus.init "BUS-102" mockRoute2 (occ 1)),
       ("BUS-103", { Bus.init "BUS-103" mockRoute1 (occ 2) with progress_to_next := 0.5 }),
       ("BUS-201", Bus.init "BUS-201" mockRoute3 (occ 3))]
    route_stats := [] }

/-- `_init_data` (lines 89–96): try `load_real_data`; on any exception fall
back to `_init_mock_data`.  The attempt's outcome is the `Except` argument:
`ok` carries the state a successful load would build, `error` carries the
raised exception's message. -/
def initData (loadResult : Except String SimState) (occ : ℕ → ℤ) : SimState :=
  match loadResult with
  | .ok s => s
  | .error _ => initMockData occ

/-- C9: whatever exception `load_real_data` raises, construction falls back to
the built-in synthetic topology — 3 routes, each with at least 3 waypoints,
and 4 buses, each bound to a route of the catalog — and the failure is never
propagated: `_init_data` yields this operable state for every error. -/
theorem init_falls_back_to_mock (e : String) (occ : ℕ → ℤ) :
    initData (.error e) occ = initMockData occ ∧
    (initMockData occ).routes.length = 3 ∧
    (initMockData occ).buses.length = 4 ∧
    (∀ p ∈ (initMockData occ).buses,
      3 ≤ p.2.route.path.length ∧
      (p.2.route.route_id, p.2.route) ∈ (initMockData occ).routes) := by
  refine ⟨rfl, rfl, rfl, ?_⟩
  intro p hp
  simp only [initMockData, List.mem_cons, List.not_mem_nil, or_false] at hp
  rcases hp with rfl | rfl | rfl | rfl
  · exact ⟨by norm_num [Bus.init, mockRoute1], by simp [Bus.init, initMockData, mockRoute1, mockRoute2, mockRoute3]⟩
  · exact ⟨by norm_num [Bus.init, mockRoute2], by simp [Bus.init, initMockData, mockRoute1, mockRoute2, mockRoute3]⟩
  · exact ⟨by norm_num [Bus.init, mockRoute1], by simp [Bus.init, initMockData, mockRoute1, mockRoute2, mockRoute3]⟩
  · exact ⟨by norm_num [Bus.init, mockRoute3], by simp [Bus.init, initMockData, mockRoute1, mockRoute2, mockRoute3]⟩

/-! ## Claim C10: lifecycle of the simulation loop -/

/-- The lifecycle state that `TransportSimulation.run` manipulates: the shared
`self.running` flag, together with the number of `while`-loop bodies
currently executing (`asyncio.create_task(simulation.run())` adds one). -/
structure ClockState where
  running : Bool
  activeLoops : ℕ
deriving DecidableEq

/-- Entry of `run` (lines 258–261): set `self.running = True` and enter the
`while` loop.  The source performs no check for an already-running loop and
never awaits a previous loop's termination before starting the new one. -/
def runEntry (s : ClockState) : ClockState :=
  { running := true, activeLoops := s.activeLoops + 1 }

/-- The `while self.running` test (line 261): an executing loop body proceeds
to another `update(1.0)` iff the flag is set. -/
def loopContinues (s : ClockState) : Bool := s.running

/-- The only stop mechanism: `simulation.running = False` (main.py line 47). -/
def stopClock (s : ClockState) : ClockState := { s with running := false }

/-- C10 fails on the code: invoking `run` twice — or stopping and immediately
re-starting before the old loop body observes the cleared flag — leaves two
loop bodies executing with `running = True`, so both keep ticking.  The
second start is neither rejected nor serialized behind the previous loop's
termination. -/
theorem double_start_duplicates_loop :
    (runEntry (runEntry ⟨false, 0⟩)).activeLoops = 2 ∧
    loopContinues (runEntry (runEntry ⟨false, 0⟩)) = true ∧
    (runEntry (stopClock (runEntry ⟨false, 0⟩))).activeLoops = 2 ∧
    loopContinues (runEntry (stopClock (runEntry ⟨false, 0⟩))) = true := by
  decide
